import Mathlib

/-
Verification of the blob-transfer client (package registry, files
src/registry/blob.go and src/unnamed/part_000).

Modelling conventions:
- HTTP exchanges performed through the injected client are modelled by an
  abstract `Outcome`: either a response with no error, a response together
  with an error (the defensive case blob.go handles), or an error with no
  response.  Each operation is a pure function of the outcomes of the
  exchanges it performs, returning its Go result together with a trace of
  the requests it issued and the response bodies it closed.
- Go errors are modelled by `GoErr`: the url.Error transport wrapper, the
  HttpStatusError carrying a status code, and a plain message error for
  everything built with fmt.Errorf / errors.Errorf.  The message rendering
  of url.Error and HttpStatusError (types whose definitions are not under
  src/) is nominal; only messages built by code under src/ are load-bearing.
- URLs are modelled as a path plus a list of query key/value pairs.  The
  normalisation performed by url.Values.Encode (key sorting, escaping) is
  abstracted away: queries are compared as key/value lists, which is
  consistent across the model.
-/

structure Response where
  statusCode : Nat
  status : String
  contentLength : Int
  location : Option String
  body : String
deriving DecidableEq, Repr

inductive GoErr where
  | urlError (inner : GoErr)
  | httpStatus (statusCode : Nat)
  | errMsg (msg : String)
deriving DecidableEq, Repr

/-- Rendering of Error() for the error shapes.  Only the errMsg case is
defined by code under src/; the other two renderings are nominal. -/
def GoErr.message : GoErr → String
  | .urlError inner => "url error: " ++ inner.message
  | .httpStatus c => "received unexpected HTTP status: " ++ toString c
  | .errMsg s => s

/-- Outcome of one HTTP exchange as seen by the calling code: a response
with nil error, a response together with a non-nil error, or a non-nil
error with nil response. -/
inductive Outcome where
  | ok (resp : Response)
  | respErr (resp : Response) (e : GoErr)
  | noResp (e : GoErr)
deriving DecidableEq, Repr

def Outcome.isOk : Outcome → Bool
  | .ok _ => true
  | _ => false

def Outcome.hasResp : Outcome → Bool
  | .ok _ => true
  | .respErr _ _ => true
  | .noResp _ => false

structure Url where
  path : String
  query : List (String × String)
deriving DecidableEq, Repr

/-- Model of q.Set(k, v) followed by u.RawQuery = q.Encode(): every
existing binding of k is replaced by the single pair (k, v). -/
def Url.setQuery (u : Url) (k v : String) : Url :=
  { u with query := (u.query.filter (fun p => p.1 ≠ k)) ++ [(k, v)] }

def joinWith (c : Char) : List (List Char) → List Char
  | [] => []
  | [x] => x
  | x :: y :: xs => x ++ c :: joinWith c (y :: xs)

/-- Splits a character list at every occurrence of c. -/
def splitEvery (c : Char) : List Char → List Char → List (List Char)
  | [], acc => [acc.reverse]
  | x :: xs, acc =>
    if x = c then acc.reverse :: splitEvery c xs [] else splitEvery c xs (x :: acc)

/-- Splits a character list at the first occurrence of c, reporting
whether c occurred at all. -/
def splitFirst (c : Char) : List Char → List Char × Option (List Char)
  | [] => ([], none)
  | x :: xs =>
    if x = c then ([], some xs)
    else
      let r := splitFirst c xs
      (x :: r.1, r.2)

def encodeQuery (q : List (String × String)) : String :=
  String.mk (joinWith '&' (q.map (fun p => p.1.data ++ '=' :: p.2.data)))

/-- Rendering of a Url back to a string, used where the Go code formats
the upload URL into an error message. -/
def urlStr (u : Url) : String :=
  if u.query.isEmpty then u.path else u.path ++ "?" ++ encodeQuery u.query

/-- Parsing of a raw query: ampersand-separated pairs, each split at the
first equals sign, as net/url ParseQuery does for unescaped input. -/
def parseQueryPairs (s : List Char) : List (String × String) :=
  if s.isEmpty then []
  else (splitEvery '&' s []).map (fun kv =>
    let r := splitFirst '=' kv
    (String.mk r.1, String.mk (r.2.getD [])))

/-- Model of url.Parse: parsing fails exactly on control characters (the
shape of input Go rejects); otherwise the string splits into a path and an
optional raw query after the first question mark.  In particular the empty
string parses successfully to the empty URL, as in Go. -/
def parseURL (s : String) : Option Url :=
  if s.data.any (fun c => c.toNat < 32 || c.toNat = 127) then none
  else
    let r := splitFirst '?' s.data
    match r.2 with
    | none => some { path := String.mk r.1, query := [] }
    | some q => some { path := String.mk r.1, query := parseQueryPairs q }

/-- Error produced when url.Parse rejects the Location header value. -/
def parseErr (s : String) : GoErr :=
  .errMsg ("parse " ++ s ++ ": net/url: invalid control character in URL")

/-- Request as assembled by the code under src/: method, target URL, the
headers the code sets, whether a body reader was passed, and whether the
GetBody regenerator was attached. -/
structure Request where
  method : String
  url : Url
  contentType : Option String
  contentRange : Option String
  contentLengthHeader : Option String
  bodyPresent : Bool
  getBodyAttached : Bool
deriving DecidableEq, Repr

/-- Trace events: a request issued through the client (tagged by which
exchange of the operation it is), and a Close() of that exchange response
body. -/
inductive Event where
  | req (r : Request) (tag : String)
  | close (tag : String)
deriving DecidableEq, Repr

def closeCount (tr : List Event) (t : String) : Nat :=
  tr.countP (fun ev => match ev with
    | .close t2 => t2 == t
    | _ => false)

def methodCount (tr : List Event) (m : String) : Nat :=
  tr.countP (fun ev => match ev with
    | .req r _ => r.method == m
    | _ => false)

def reqsOf (tr : List Event) (t : String) : List Request :=
  tr.filterMap (fun ev => match ev with
    | .req r t2 => if t2 == t then some r else none
    | _ => none)

/-- Model of registry.url("/v2/%s/blobs/uploads/", repository).  The URL
constructor itself lives outside src/; this renders the route format of
the spec, omitting the base endpoint prefix. -/
def uploadsUrl (repo : String) : Url :=
  { path := "/v2/" ++ repo ++ "/blobs/uploads/", query := [] }

/-- Model of registry.url("/v2/%s/blobs/%s", repository, digest). -/
def blobUrl (repo dig : String) : Url :=
  { path := "/v2/" ++ repo ++ "/blobs/" ++ dig, query := [] }

/-- Request issued by registry.Client.Post(url, "application/octet-stream", nil). -/
def initiateRequest (repo : String) : Request :=
  { method := "POST", url := uploadsUrl repo,
    contentType := some "application/octet-stream", contentRange := none,
    contentLengthHeader := none, bodyPresent := false, getBodyAttached := false }

/-- Request issued by registry.Client.Head(url). -/
def headRequest (repo dig : String) : Request :=
  { method := "HEAD", url := blobUrl repo dig,
    contentType := none, contentRange := none,
    contentLengthHeader := none, bodyPresent := false, getBodyAttached := false }

/-- Request issued by registry.Client.Get(url). -/
def getRequest (repo dig : String) : Request :=
  { method := "GET", url := blobUrl repo dig,
    contentType := none, contentRange := none,
    contentLengthHeader := none, bodyPresent := false, getBodyAttached := false }

/-- Request built by http.NewRequest(method, u, body) with
Content-Type set to application/octet-stream and GetBody optionally
attached, as all the upload paths do. -/
def octetRequest (method : String) (u : Url) (body gb : Bool) : Request :=
  { method := method, url := u,
    contentType := some "application/octet-stream", contentRange := none,
    contentLengthHeader := none, bodyPresent := body, getBodyAttached := gb }

/-- Finalizing PUT of completeChunkedUploadBlob: nil body, Content-Type
application/octet-stream, Content-Range 0-0, Content-Length 0. -/
def finalizePutRequest (u : Url) (gb : Bool) : Request :=
  { method := "PUT", url := u,
    contentType := some "application/octet-stream", contentRange := some "0-0",
    contentLengthHeader := some "0", bodyPresent := false, getBodyAttached := gb }

/-- Embedding of initiateUpload (identical in blob.go lines 158-176 and
part_000 lines 176-194): POST to the uploads collection, defer-close the
response body when a response is present, propagate a non-nil error, then
parse the Location header (Header.Get returns the empty string when the
header is absent). -/
def initiateUpload (repo : String) (o : Outcome) : Except GoErr Url × List Event :=
  match o with
  | .ok resp =>
    let loc := resp.location.getD ""
    match parseURL loc with
    | some u => (.ok u, [.req (initiateRequest repo) "init", .close "init"])
    | none => (.error (parseErr loc), [.req (initiateRequest repo) "init", .close "init"])
  | .respErr _ e => (.error e, [.req (initiateRequest repo) "init", .close "init"])
  | .noResp e => (.error e, [.req (initiateRequest repo) "init"])

/-- Embedding of UploadBlob (identical in blob.go lines 85-111 and
part_000 lines 103-129): initiate a session, append the digest query
parameter, issue one PUT with the content as body; a non-nil error from
the exchange is returned as is (without closing any response), otherwise
the body is closed and nil returned regardless of the status code. -/
def UploadBlob (repo dig : String) (gb : Bool) (initO putO : Outcome) : Option GoErr × List Event :=
  match (initiateUpload repo initO).1 with
  | .error e => (some e, (initiateUpload repo initO).2)
  | .ok uploadUrl =>
    let u := uploadUrl.setQuery "digest" dig
    match putO with
    | .ok _ => (none, (initiateUpload repo initO).2 ++ [.req (octetRequest "PUT" u true gb) "put", .close "put"])
    | .respErr _ e => (some e, (initiateUpload repo initO).2 ++ [.req (octetRequest "PUT" u true gb) "put"])
    | .noResp e => (some e, (initiateUpload repo initO).2 ++ [.req (octetRequest "PUT" u true gb) "put"])

/-- Embedding of completeChunkedUploadBlob (part_000 lines 61-93): append
the digest query parameter to the session URL, issue the finalizing PUT
with a nil body and explicit Content-Range 0-0 / Content-Length 0; a
non-nil exchange error is returned as is; a response with status other
than 201 has its body read into the diagnostic message and the error
returned without closing the body; on 201 the body is closed and nil
returned. -/
def completeChunkedUploadBlob (dig : String) (gb : Bool) (uploadUrl : Url) (putO : Outcome) : Option GoErr × List Event :=
  let u := uploadUrl.setQuery "digest" dig
  match putO with
  | .noResp e => (some e, [.req (finalizePutRequest u gb) "put"])
  | .respErr _ e => (some e, [.req (finalizePutRequest u gb) "put"])
  | .ok resp =>
    if resp.statusCode ≠ 201 then
      (some (.errMsg ("retrieving " ++ urlStr u ++ " returned " ++ resp.status ++ " response: " ++ resp.body)),
       [.req (finalizePutRequest u gb) "put"])
    else (none, [.req (finalizePutRequest u gb) "put", .close "put"])

/-- Embedding of UploadChunkedBlob (part_000 lines 28-57): initiate a
session, PATCH the content to the session URL exactly as returned (no
digest parameter), and on 202 close the body and delegate to
completeChunkedUploadBlob; a non-202 response has its body read into the
diagnostic message and the error returned without closing the body; a
non-nil exchange error is returned as is. -/
def UploadChunkedBlob (repo dig : String) (gb : Bool) (initO patchO putO : Outcome) : Option GoErr × List Event :=
  match (initiateUpload repo initO).1 with
  | .error e => (some e, (initiateUpload repo initO).2)
  | .ok uploadUrl =>
    match patchO with
    | .noResp e => (some e, (initiateUpload repo initO).2 ++ [.req (octetRequest "PATCH" uploadUrl true gb) "patch"])
    | .respErr _ e => (some e, (initiateUpload repo initO).2 ++ [.req (octetRequest "PATCH" uploadUrl true gb) "patch"])
    | .ok resp =>
      if resp.statusCode ≠ 202 then
        (some (.errMsg ("retrieving " ++ urlStr uploadUrl ++ " returned " ++ resp.status ++ " response: " ++ resp.body)),
         (initiateUpload repo initO).2 ++ [.req (octetRequest "PATCH" uploadUrl true gb) "patch"])
      else
        let rest := completeChunkedUploadBlob dig gb uploadUrl putO
        (rest.1,
         (initiateUpload repo initO).2 ++ [.req (octetRequest "PATCH" uploadUrl true gb) "patch", .close "patch"] ++ rest.2)

/-- Embedding of UploadBlobToArtifactory (blob.go lines 27-75): initiate a
session, append the digest query parameter BEFORE phase 1, PATCH the
content to the digest-carrying URL with a deferred body close when a
response is present; a non-nil error yields a message that distinguishes
whether a response exists; a non-202 status yields a message carrying the
status code and status text but not the body; on 202 a PUT with nil body
(and no Content-Length or Content-Range headers) is issued to the same
digest-carrying URL and its error, possibly nil, returned with the phase-2
response never closed.  The deferred close of the phase-1 body is recorded
at return time, hence last in the trace. -/
def UploadBlobToArtifactory (repo dig : String) (gb : Bool) (initO patchO putO : Outcome) : Option GoErr × List Event :=
  match (initiateUpload repo initO).1 with
  | .error e => (some e, (initiateUpload repo initO).2)
  | .ok uploadUrl =>
    let u := uploadUrl.setQuery "digest" dig
    match patchO with
    | .noResp e =>
      (some (.errMsg ("error while uploading blob to " ++ repo ++ ", digest: " ++ dig ++ ": " ++ e.message)),
       (initiateUpload repo initO).2 ++ [.req (octetRequest "PATCH" u true gb) "patch"])
    | .respErr resp e =>
      (some (.errMsg ("error while uploading blob to " ++ repo ++ ": " ++ toString resp.statusCode ++ " " ++ resp.status ++ ": digest: " ++ dig ++ ": " ++ e.message)),
       (initiateUpload repo initO).2 ++ [.req (octetRequest "PATCH" u true gb) "patch", .close "patch"])
    | .ok resp =>
      if resp.statusCode ≠ 202 then
        (some (.errMsg ("unexpected PATCH response while uploading blob to " ++ repo ++ ": " ++ toString resp.statusCode ++ " " ++ resp.status ++ ": digest: " ++ dig)),
         (initiateUpload repo initO).2 ++ [.req (octetRequest "PATCH" u true gb) "patch", .close "patch"])
      else
        match putO with
        | .ok _ =>
          (none,
           (initiateUpload repo initO).2 ++ [.req (octetRequest "PATCH" u true gb) "patch", .req (octetRequest "PUT" u false gb) "put", .close "patch"])
        | .respErr _ e =>
          (some e,
           (initiateUpload repo initO).2 ++ [.req (octetRequest "PATCH" u true gb) "patch", .req (octetRequest "PUT" u false gb) "put", .close "patch"])
        | .noResp e =>
          (some e,
           (initiateUpload repo initO).2 ++ [.req (octetRequest "PATCH" u true gb) "patch", .req (octetRequest "PUT" u false gb) "put", .close "patch"])

/-- Embedding of the error classification inside HasBlob (blob.go lines
125-137): a url.Error wrapper whose inner cause is an HttpStatusError
with status 404 becomes (false, nil); every other shape is propagated. -/
def hasBlobClassify (e : GoErr) : Bool × Option GoErr :=
  match e with
  | .urlError inner =>
    match inner with
    | .httpStatus code => if code = 404 then (false, none) else (false, .some (.urlError inner))
    | _ => (false, some (.urlError inner))
  | _ => (false, some e)

/-- Embedding of HasBlob (identical in blob.go lines 113-138 and part_000
lines 131-156): HEAD the blob URL, defer-close the body when a response is
present; with nil error return whether the status is 200; otherwise
classify the error. -/
def HasBlob (repo dig : String) (o : Outcome) : (Bool × Option GoErr) × List Event :=
  match o with
  | .ok resp => ((resp.statusCode == 200, none), [.req (headRequest repo dig) "head", .close "head"])
  | .respErr _ e => (hasBlobClassify e, [.req (headRequest repo dig) "head", .close "head"])
  | .noResp e => (hasBlobClassify e, [.req (headRequest repo dig) "head"])

/-- Model of distribution.Descriptor restricted to the fields this code
sets; the zero value has empty digest and size 0. -/
structure Descriptor where
  digest : String
  size : Int
deriving DecidableEq, Repr

def Descriptor.zero : Descriptor := { digest := "", size := 0 }

/-- Embedding of BlobMetadata (identical in blob.go lines 140-156 and
part_000 lines 158-174): HEAD the blob URL, defer-close the body when a
response is present; any non-nil error is returned with the zero
descriptor; otherwise the descriptor carries the caller digest and the
response Content-Length. -/
def BlobMetadata (repo dig : String) (o : Outcome) : (Descriptor × Option GoErr) × List Event :=
  match o with
  | .ok resp => (({ digest := dig, size := resp.contentLength }, none), [.req (headRequest repo dig) "head", .close "head"])
  | .respErr _ e => ((Descriptor.zero, some e), [.req (headRequest repo dig) "head", .close "head"])
  | .noResp e => ((Descriptor.zero, some e), [.req (headRequest repo dig) "head"])

/-- Embedding of DownloadBlob (identical in blob.go lines 13-23 and
part_000 lines 14-24): GET the blob URL; a non-nil error is returned with
a nil stream; otherwise the live body is handed to the caller unclosed,
with no status inspection.  The body stream is modelled by its contents. -/
def DownloadBlob (repo dig : String) (o : Outcome) : (Option String × Option GoErr) × List Event :=
  match o with
  | .ok resp => ((some resp.body, none), [.req (getRequest repo dig) "get"])
  | .respErr _ e => ((none, some e), [.req (getRequest repo dig) "get"])
  | .noResp e => ((none, some e), [.req (getRequest repo dig) "get"])

/-- Checks whether the first character list begins with the second. -/
def listStartsWith : List Char → List Char → Bool
  | _, [] => true
  | [], _ :: _ => false
  | a :: as, b :: bs => a == b && listStartsWith as bs

/-- Checks whether the second character list occurs contiguously inside
the first. -/
def containsSub : List Char → List Char → Bool
  | [], sub => sub.isEmpty
  | a :: as, sub => listStartsWith (a :: as) sub || containsSub as sub

/-- Substring occurrence on strings, used to state that a diagnostic
message carries the response status or body text. -/
def strContains (s sub : String) : Bool := containsSub s.data sub.data

theorem stringDataAppend (x y : String) : (x ++ y).data = x.data ++ y.data := by
  cases x; cases y; rfl

theorem stringAppendAssoc (a b c : String) : a ++ b ++ c = a ++ (b ++ c) := by
  cases a; cases b; cases c; simp [String.append_assoc]

theorem stringAppendEmpty (s : String) : s ++ "" = s := by simp

theorem listStartsWith_refl_append (b c : List Char) : listStartsWith (b ++ c) b = true := by
  induction b with
  | nil => cases c <;> simp [listStartsWith]
  | cons x xs ih => simp [listStartsWith, ih]

theorem containsSub_of_startsWith (s sub : List Char) (h : listStartsWith s sub = true) :
    containsSub s sub = true := by
  cases s with
  | nil =>
    cases sub with
    | nil => simp [containsSub]
    | cons b bs => simp [listStartsWith] at h
  | cons a as => simp [containsSub, h]

theorem containsSub_append_left (p s sub : List Char) (h : containsSub s sub = true) :
    containsSub (p ++ s) sub = true := by
  induction p with
  | nil => simpa using h
  | cons x xs ih => simp [containsSub, ih]

theorem strContains_parts (pre sub post : String) : strContains (pre ++ sub ++ post) sub = true := by
  have hdata : (pre ++ sub ++ post).data = pre.data ++ (sub.data ++ post.data) := by
    rw [stringDataAppend, stringDataAppend, List.append_assoc]
  rw [strContains, hdata]
  exact containsSub_append_left _ _ _
    (containsSub_of_startsWith _ _ (listStartsWith_refl_append sub.data post.data))

theorem strContains_seg (s pre sub post : String) (h : s = pre ++ sub ++ post) :
    strContains s sub = true := by
  rw [h]; exact strContains_parts pre sub post

theorem hasBlobClassify_other (e : GoErr) (h : e ≠ .urlError (.httpStatus 404)) :
    hasBlobClassify e = (false, some e) := by
  match e with
  | .urlError (.httpStatus c) =>
    have hc : ¬ c = 404 := by
      intro hc
      exact h (by rw [hc])
    simp [hasBlobClassify, hc]
  | .urlError (.urlError i) => simp [hasBlobClassify]
  | .urlError (.errMsg m) => simp [hasBlobClassify]
  | .httpStatus c => simp [hasBlobClassify]
  | .errMsg m => simp [hasBlobClassify]

/-- C1: HasBlob returns (true, nil) when the HEAD exchange completes
without error and with status 200; returns (false, nil) when the exchange
error is a url.Error wrapper whose inner cause is an HTTP-status error
with status 404; and for every other error shape returns false together
with that error propagated unchanged. -/
theorem hasBlob_classification (repo dig : String) (resp : Response) (e : GoErr) :
    (resp.statusCode = 200 → (HasBlob repo dig (.ok resp)).1 = (true, none)) ∧
    (HasBlob repo dig (.noResp (.urlError (.httpStatus 404)))).1 = (false, none) ∧
    (HasBlob repo dig (.respErr resp (.urlError (.httpStatus 404)))).1 = (false, none) ∧
    (e ≠ .urlError (.httpStatus 404) →
      (HasBlob repo dig (.noResp e)).1 = (false, some e) ∧
      (HasBlob repo dig (.respErr resp e)).1 = (false, some e)) := by
  refine ⟨?_, ?_, ?_, ?_⟩
  · intro h; simp [HasBlob, h]
  · simp [HasBlob, hasBlobClassify]
  · simp [HasBlob, hasBlobClassify]
  · intro h
    exact ⟨by simp [HasBlob, hasBlobClassify_other e h], by simp [HasBlob, hasBlobClassify_other e h]⟩

theorem hasBlob_classification_witness :
    (HasBlob "r" "sha256:d"
      (.ok { statusCode := 200, status := "200 OK", contentLength := 7, location := none, body := "" })).1
      = (true, none) ∧
    (HasBlob "r" "sha256:d" (.noResp (.errMsg "boom"))).1 = (false, some (.errMsg "boom")) :=
  ⟨(hasBlob_classification "r" "sha256:d"
      { statusCode := 200, status := "200 OK", contentLength := 7, location := none, body := "" }
      (.errMsg "boom")).1 rfl,
   ((hasBlob_classification "r" "sha256:d"
      { statusCode := 200, status := "200 OK", contentLength := 7, location := none, body := "" }
      (.errMsg "boom")).2.2.2 (by decide)).1⟩

/-- C8: BlobMetadata returns the descriptor carrying the caller digest and
the response Content-Length on an error-free HEAD exchange, and the zero
descriptor together with the unchanged error on any exchange error,
including the url.Error-wrapped 404 shape that HasBlob special-cases. -/
theorem blobMetadata_spec (repo dig : String) (resp : Response) (e : GoErr) :
    (BlobMetadata repo dig (.ok resp)).1 = ({ digest := dig, size := resp.contentLength }, none) ∧
    (BlobMetadata repo dig (.noResp e)).1 = (Descriptor.zero, some e) ∧
    (BlobMetadata repo dig (.respErr resp e)).1 = (Descriptor.zero, some e) ∧
    (BlobMetadata repo dig (.noResp (.urlError (.httpStatus 404)))).1 =
      (Descriptor.zero, some (.urlError (.httpStatus 404))) :=
  ⟨rfl, rfl, rfl, rfl⟩

/-- C9: DownloadBlob returns an error exactly when the GET exchange itself
errors; whenever a response is received the body stream is handed to the
caller with nil error, no status inspection, and no close of the body. -/
theorem downloadBlob_spec (repo dig : String) (resp : Response) (e : GoErr) :
    (DownloadBlob repo dig (.ok resp)).1 = (some resp.body, none) ∧
    (DownloadBlob repo dig (.ok resp)).2 = [.req (getRequest repo dig) "get"] ∧
    closeCount (DownloadBlob repo dig (.ok resp)).2 "get" = 0 ∧
    (DownloadBlob repo dig (.noResp e)).1 = (none, some e) ∧
    (DownloadBlob repo dig (.respErr resp e)).1 = (none, some e) :=
  ⟨rfl, rfl, rfl, rfl, rfl⟩

/-- Raw result of one HTTP round trip before the client error
classification: either a transport failure or a served response. -/
inductive RawOutcome where
  | transportErr (e : GoErr)
  | response (resp : Response)
deriving DecidableEq, Repr

/-- Modelled from the spec: the error-classifying HTTP client used by the
registry object (the transport that defines HttpStatusError) is referenced
by the code under src/ but defined outside it.  Following sections 6 and 7
of the spec, a transport failure and a non-success response status are
both surfaced as a transport-error wrapper (url.Error), the latter with an
inner HTTP-status error carrying the response status; the wrapped response
body is consumed by that layer, so the caller receives no response.  A
success-status response is passed through unchanged. -/
def classifyClient : RawOutcome → Outcome
  | .transportErr e => .noResp (.urlError e)
  | .response resp =>
    if resp.statusCode ≥ 400 then .noResp (.urlError (.httpStatus resp.statusCode))
    else .ok resp

theorem parseURL_empty : parseURL "" = some { path := "", query := [] } := by decide

/-- C5: through the error-classifying client, initiateUpload returns an
error on a transport failure, on a non-success response status, and on a
Location header value that url.Parse rejects; it closes the response body
whenever it receives a response; and otherwise it returns the parsed
Location URL. -/
theorem initiateUpload_spec (repo : String) (e : GoErr) (resp : Response) (o : Outcome) :
    ((initiateUpload repo (classifyClient (.transportErr e))).1 = .error (.urlError e)) ∧
    (400 ≤ resp.statusCode →
      (initiateUpload repo (classifyClient (.response resp))).1 =
        .error (.urlError (.httpStatus resp.statusCode))) ∧
    (resp.statusCode < 400 → parseURL (resp.location.getD "") = none →
      (initiateUpload repo (classifyClient (.response resp))).1 =
        .error (parseErr (resp.location.getD ""))) ∧
    (∀ u, resp.statusCode < 400 → parseURL (resp.location.getD "") = some u →
      (initiateUpload repo (classifyClient (.response resp))).1 = .ok u) ∧
    (closeCount (initiateUpload repo o).2 "init" = if o.hasResp then 1 else 0) := by
  refine ⟨rfl, ?_, ?_, ?_, ?_⟩
  · intro h
    simp [classifyClient, initiateUpload, h]
  · intro h hp
    have hn : ¬ resp.statusCode ≥ 400 := Nat.not_le.mpr h
    simp [classifyClient, initiateUpload, hn, hp]
  · intro u h hp
    have hn : ¬ resp.statusCode ≥ 400 := Nat.not_le.mpr h
    simp [classifyClient, initiateUpload, hn, hp]
  · cases o with
    | ok resp2 =>
      rcases hp : parseURL (resp2.location.getD "") with _ | u <;>
        simp [initiateUpload, hp, closeCount, Outcome.hasResp]
    | respErr resp2 e2 => simp [initiateUpload, closeCount, Outcome.hasResp]
    | noResp e2 => simp [initiateUpload, closeCount, Outcome.hasResp]

theorem initiateUpload_spec_witness :
    (initiateUpload "r" (classifyClient
        (.response { statusCode := 404, status := "404 Not Found", contentLength := 0, location := none, body := "" }))).1
      = .error (.urlError (.httpStatus 404)) ∧
    (initiateUpload "r" (classifyClient
        (.response { statusCode := 202, status := "202 Accepted", contentLength := 0, location := some "\x01", body := "" }))).1
      = .error (parseErr "\x01") ∧
    (initiateUpload "r" (classifyClient
        (.response { statusCode := 202, status := "202 Accepted", contentLength := 0, location := some "sess", body := "" }))).1
      = .ok { path := "sess", query := [] } :=
  ⟨(initiateUpload_spec "r" (.errMsg "x")
      { statusCode := 404, status := "404 Not Found", contentLength := 0, location := none, body := "" }
      (.noResp (.errMsg "x"))).2.1 (by decide),
   (initiateUpload_spec "r" (.errMsg "x")
      { statusCode := 202, status := "202 Accepted", contentLength := 0, location := some "\x01", body := "" }
      (.noResp (.errMsg "x"))).2.2.1 (by decide) (by decide),
   (initiateUpload_spec "r" (.errMsg "x")
      { statusCode := 202, status := "202 Accepted", contentLength := 0, location := some "sess", body := "" }
      (.noResp (.errMsg "x"))).2.2.2.1 { path := "sess", query := [] } (by decide) (by decide)⟩

/-- C10: a session-start response carrying no Location header, or an empty
one, does not take the malformed-location branch: initiateUpload returns
the URL parsed from the empty string with nil error, and the monolithic
upload then builds its PUT against that empty location with only the
digest query parameter. -/
theorem emptyLocation_accepted (repo dig : String) (gb : Bool) (resp : Response) (putO : Outcome)
    (h : resp.location = none ∨ resp.location = some "") :
    (initiateUpload repo (.ok resp)).1 = .ok { path := "", query := [] } ∧
    reqsOf (UploadBlob repo dig gb (.ok resp) putO).2 "put" =
      [octetRequest "PUT" { path := "", query := [("digest", dig)] } true gb] := by
  have hloc : resp.location.getD "" = "" := by rcases h with h | h <;> simp [h]
  have hp : (initiateUpload repo (.ok resp)).1 = .ok { path := "", query := [] } := by
    simp [initiateUpload, hloc, parseURL_empty]
  refine ⟨hp, ?_⟩
  have hq : Url.setQuery { path := "", query := [] } "digest" dig =
      { path := "", query := [("digest", dig)] } := rfl
  cases putO <;>
    simp [UploadBlob, hp, hq, initiateUpload, hloc, parseURL_empty, reqsOf,
      initiateRequest, octetRequest]

theorem emptyLocation_accepted_witness :
    (initiateUpload "r"
      (.ok { statusCode := 202, status := "202 Accepted", contentLength := 0, location := none, body := "" })).1
      = .ok { path := "", query := [] } :=
  (emptyLocation_accepted "r" "sha256:d" false
    { statusCode := 202, status := "202 Accepted", contentLength := 0, location := none, body := "" }
    (.ok { statusCode := 201, status := "201 Created", contentLength := 0, location := none, body := "" })
    (Or.inl rfl)).1

/-- C7: UploadBlob first obtains a session, appends the digest query
parameter to the session location, issues a single PUT with Content-Type
application/octet-stream and the content as body, and succeeds exactly
when session initiation succeeded and the PUT exchange returned no
transport error, whatever the PUT response status code was. -/
theorem uploadBlob_spec (repo dig : String) (gb : Bool) (initO putO : Outcome) :
    (∀ e, (initiateUpload repo initO).1 = .error e →
      UploadBlob repo dig gb initO putO = (some e, (initiateUpload repo initO).2)) ∧
    (∀ u, (initiateUpload repo initO).1 = .ok u →
      ((UploadBlob repo dig gb initO putO).1 = none ↔ putO.isOk = true) ∧
      (UploadBlob repo dig gb initO putO).2 =
        (initiateUpload repo initO).2 ++
          [.req (octetRequest "PUT" (u.setQuery "digest" dig) true gb) "put"] ++
          (if putO.isOk then [.close "put"] else [])) := by
  constructor
  · intro e he
    simp [UploadBlob, he]
  · intro u hu
    cases putO <;> simp [UploadBlob, hu, Outcome.isOk]

theorem uploadBlob_spec_witness :
    (UploadBlob "r" "sha256:d" false
      (.ok { statusCode := 202, status := "202 Accepted", contentLength := 0, location := some "sess", body := "" })
      (.ok { statusCode := 500, status := "500 Internal Server Error", contentLength := 0, location := none, body := "" })).1
      = none := by
  have h := (uploadBlob_spec "r" "sha256:d" false
    (.ok { statusCode := 202, status := "202 Accepted", contentLength := 0, location := some "sess", body := "" })
    (.ok { statusCode := 500, status := "500 Internal Server Error", contentLength := 0, location := none, body := "" })).2
    { path := "sess", query := [] } rfl
  exact h.1.mpr rfl

/-- Session-start response whose Location header is the session URL. -/
def sessResp : Response :=
  { statusCode := 202, status := "202 Accepted", contentLength := 0, location := some "sess", body := "" }

/-- Response with status 202 Accepted and empty body. -/
def acceptedResp : Response :=
  { statusCode := 202, status := "202 Accepted", contentLength := 0, location := none, body := "" }

/-- Response with status 200 OK carrying a recognisable body text. -/
def okBodyResp : Response :=
  { statusCode := 200, status := "200 OK", contentLength := 0, location := none, body := "BODYTEXT" }

/-- Response with status 201 Created and empty body. -/
def createdResp : Response :=
  { statusCode := 201, status := "201 Created", contentLength := 0, location := none, body := "" }

theorem initiate_no_put (repo : String) (o : Outcome) :
    methodCount (initiateUpload repo o).2 "PUT" = 0 := by
  have hb : (("POST" : String) == "PUT") = false := by decide
  cases o with
  | ok resp =>
    rcases hp : parseURL (resp.location.getD "") with _ | u <;>
      simp [initiateUpload, hp, methodCount, initiateRequest, hb]
  | respErr resp e => simp [initiateUpload, methodCount, initiateRequest, hb]
  | noResp e => simp [initiateUpload, methodCount, initiateRequest, hb]

theorem initiate_reqsOf_other (repo : String) (o : Outcome) (t : String)
    (h : ("init" : String) ≠ t) :
    reqsOf (initiateUpload repo o).2 t = [] := by
  cases o with
  | ok resp =>
    rcases hp : parseURL (resp.location.getD "") with _ | u <;>
      simp [initiateUpload, hp, reqsOf, h]
  | respErr resp e => simp [initiateUpload, reqsOf, h]
  | noResp e => simp [initiateUpload, reqsOf, h]

/-- C2 counterexample: in UploadBlobToArtifactory a phase-1 PATCH answered
with 202 followed by a finalizing PUT answered with status 200 (not 201)
and a non-empty body makes the operation return nil, not an error carrying
the phase-2 status and body text. -/
theorem artifactoryFinalizeStatusIgnored :
    (UploadBlobToArtifactory "r" "sha256:d" false (.ok sessResp) (.ok acceptedResp) (.ok okBodyResp)).1
      = none := by decide

/-- C2 amended: in UploadChunkedBlob a phase-1 PATCH answered with 202
followed by a finalizing PUT answered without transport error and with a
status other than 201 makes the operation return an error carrying the
phase-2 status text and body text; UploadBlobToArtifactory, in contrast,
ignores the phase-2 status entirely and returns nil on the same exchanges. -/
theorem chunkedFinalize_error_message (repo dig : String) (gb : Bool) (initO : Outcome) (u : Url)
    (presp put2 : Response)
    (hinit : (initiateUpload repo initO).1 = .ok u)
    (hp : presp.statusCode = 202) (h2 : put2.statusCode ≠ 201) :
    (UploadChunkedBlob repo dig gb initO (.ok presp) (.ok put2)).1 =
      some (.errMsg ("retrieving " ++ urlStr (u.setQuery "digest" dig) ++ " returned " ++
        put2.status ++ " response: " ++ put2.body)) ∧
    strContains ("retrieving " ++ urlStr (u.setQuery "digest" dig) ++ " returned " ++
        put2.status ++ " response: " ++ put2.body) put2.status = true ∧
    strContains ("retrieving " ++ urlStr (u.setQuery "digest" dig) ++ " returned " ++
        put2.status ++ " response: " ++ put2.body) put2.body = true ∧
    (UploadBlobToArtifactory repo dig gb initO (.ok presp) (.ok put2)).1 = none := by
  refine ⟨?_, ?_, ?_, ?_⟩
  · simp [UploadChunkedBlob, hinit, hp, completeChunkedUploadBlob, h2]
  · exact strContains_seg _
      ("retrieving " ++ urlStr (u.setQuery "digest" dig) ++ " returned ")
      put2.status (" response: " ++ put2.body)
      (stringAppendAssoc
        ("retrieving " ++ urlStr (u.setQuery "digest" dig) ++ " returned " ++ put2.status)
        " response: " put2.body)
  · exact strContains_seg _
      ("retrieving " ++ urlStr (u.setQuery "digest" dig) ++ " returned " ++
        put2.status ++ " response: ")
      put2.body ""
      ((stringAppendEmpty _).symm)
  · simp [UploadBlobToArtifactory, hinit, hp]

theorem chunkedFinalize_error_message_witness :
    (UploadChunkedBlob "r" "sha256:d" false (.ok sessResp) (.ok acceptedResp) (.ok okBodyResp)).1 =
      some (.errMsg "retrieving sess?digest=sha256:d returned 200 OK response: BODYTEXT") := by
  have h := chunkedFinalize_error_message "r" "sha256:d" false (.ok sessResp)
    { path := "sess", query := [] } acceptedResp okBodyResp rfl rfl (by decide)
  rw [h.1]; decide

/-- C3 counterexample: in UploadBlobToArtifactory a phase-1 PATCH answered
without transport error and with status 200 (not 202) produces an error
whose message carries the status but not the response body text. -/
theorem artifactoryPatch_message_no_body :
    (UploadBlobToArtifactory "r" "sha256:d" false (.ok sessResp) (.ok okBodyResp) (.ok createdResp)).1 =
      some (.errMsg "unexpected PATCH response while uploading blob to r: 200 200 OK: digest: sha256:d") ∧
    strContains "unexpected PATCH response while uploading blob to r: 200 200 OK: digest: sha256:d"
      "BODYTEXT" = false := by
  exact ⟨by decide, by decide⟩

/-- C3 amended: a phase-1 PATCH answered without transport error and with
a status other than 202 aborts both chunked-upload variants before any
phase-2 PUT is issued; UploadChunkedBlob reports an error carrying the
response status and the response body text, while UploadBlobToArtifactory
reports an error carrying the response status code and status text but
not the body. -/
theorem patchFailure_aborts (repo dig : String) (gb : Bool) (initO : Outcome) (u : Url)
    (presp : Response) (putO : Outcome)
    (hinit : (initiateUpload repo initO).1 = .ok u)
    (hne : presp.statusCode ≠ 202) :
    (UploadChunkedBlob repo dig gb initO (.ok presp) putO).1 =
      some (.errMsg ("retrieving " ++ urlStr u ++ " returned " ++ presp.status ++
        " response: " ++ presp.body)) ∧
    strContains ("retrieving " ++ urlStr u ++ " returned " ++ presp.status ++
        " response: " ++ presp.body) presp.status = true ∧
    strContains ("retrieving " ++ urlStr u ++ " returned " ++ presp.status ++
        " response: " ++ presp.body) presp.body = true ∧
    methodCount (UploadChunkedBlob repo dig gb initO (.ok presp) putO).2 "PUT" = 0 ∧
    (UploadBlobToArtifactory repo dig gb initO (.ok presp) putO).1 =
      some (.errMsg ("unexpected PATCH response while uploading blob to " ++ repo ++ ": " ++
        toString presp.statusCode ++ " " ++ presp.status ++ ": digest: " ++ dig)) ∧
    strContains ("unexpected PATCH response while uploading blob to " ++ repo ++ ": " ++
        toString presp.statusCode ++ " " ++ presp.status ++ ": digest: " ++ dig)
      presp.status = true ∧
    methodCount (UploadBlobToArtifactory repo dig gb initO (.ok presp) putO).2 "PUT" = 0 := by
  have hb : (("PATCH" : String) == "PUT") = false := by decide
  have h0 := initiate_no_put repo initO
  refine ⟨?_, ?_, ?_, ?_, ?_, ?_, ?_⟩
  · simp [UploadChunkedBlob, hinit, hne]
  · exact strContains_seg _ ("retrieving " ++ urlStr u ++ " returned ")
      presp.status (" response: " ++ presp.body)
      (stringAppendAssoc ("retrieving " ++ urlStr u ++ " returned " ++ presp.status)
        " response: " presp.body)
  · exact strContains_seg _
      ("retrieving " ++ urlStr u ++ " returned " ++ presp.status ++ " response: ")
      presp.body "" ((stringAppendEmpty _).symm)
  · simp only [methodCount] at h0 ⊢
    simp [UploadChunkedBlob, hinit, hne, List.countP_append, List.countP_cons,
      octetRequest, hb, h0]
  · simp [UploadBlobToArtifactory, hinit, hne]
  · exact strContains_seg _
      ("unexpected PATCH response while uploading blob to " ++ repo ++ ": " ++
        toString presp.statusCode ++ " ")
      presp.status (": digest: " ++ dig)
      (stringAppendAssoc
        ("unexpected PATCH response while uploading blob to " ++ repo ++ ": " ++
          toString presp.statusCode ++ " " ++ presp.status)
        ": digest: " dig)
  · simp only [methodCount] at h0 ⊢
    simp [UploadBlobToArtifactory, hinit, hne, List.countP_append, List.countP_cons,
      octetRequest, hb, h0]

theorem patchFailure_aborts_witness :
    (UploadChunkedBlob "r" "sha256:d" false (.ok sessResp) (.ok okBodyResp) (.ok createdResp)).1 =
      some (.errMsg "retrieving sess returned 200 OK response: BODYTEXT") ∧
    methodCount (UploadChunkedBlob "r" "sha256:d" false (.ok sessResp) (.ok okBodyResp)
      (.ok createdResp)).2 "PUT" = 0 := by
  have h := patchFailure_aborts "r" "sha256:d" false (.ok sessResp) { path := "sess", query := [] }
    okBodyResp (.ok createdResp) rfl (by decide)
  refine ⟨?_, h.2.2.2.1⟩
  rw [h.1]; decide

/-- C4 counterexample: in UploadBlobToArtifactory the digest query
parameter is appended to the session location before phase 1, so the
phase-1 PATCH already carries it, although the session location returned
by initiation has no digest parameter; moreover the finalizing PUT sets
neither Content-Length nor Content-Range headers. -/
theorem artifactoryPatch_carries_digest :
    reqsOf (UploadBlobToArtifactory "r" "sha256:d" false (.ok sessResp) (.ok acceptedResp)
        (.ok createdResp)).2 "patch" =
      [octetRequest "PATCH" { path := "sess", query := [("digest", "sha256:d")] } true false] ∧
    (initiateUpload "r" (.ok sessResp)).1 = .ok { path := "sess", query := [] } ∧
    reqsOf (UploadBlobToArtifactory "r" "sha256:d" false (.ok sessResp) (.ok acceptedResp)
        (.ok createdResp)).2 "put" =
      [octetRequest "PUT" { path := "sess", query := [("digest", "sha256:d")] } false false] ∧
    (octetRequest "PUT" { path := "sess", query := [("digest", "sha256:d")] } false false).contentLengthHeader
      = none ∧
    (octetRequest "PUT" { path := "sess", query := [("digest", "sha256:d")] } false false).contentRange
      = none :=
  ⟨by decide, rfl, by decide, rfl, rfl⟩

theorem completeChunked_reqs (dig : String) (gb : Bool) (u2 : Url) (putO : Outcome) :
    reqsOf (completeChunkedUploadBlob dig gb u2 putO).2 "put" =
      [finalizePutRequest (u2.setQuery "digest" dig) gb] ∧
    reqsOf (completeChunkedUploadBlob dig gb u2 putO).2 "patch" = [] := by
  have e1 : (("put" : String) == "patch") = false := by decide
  have e2 : (("put" : String) == "put") = true := by decide
  cases putO with
  | ok resp2 =>
    by_cases hc : resp2.statusCode = 201 <;>
      simp [completeChunkedUploadBlob, hc, reqsOf, e1, e2]
  | respErr resp2 e => simp [completeChunkedUploadBlob, reqsOf, e1, e2]
  | noResp e => simp [completeChunkedUploadBlob, reqsOf, e1, e2]

/-- C4 amended: UploadChunkedBlob issues the phase-1 PATCH to the session
location exactly as returned by initiation and appends the digest query
parameter only on the finalizing PUT, which carries a nil body with
explicit Content-Length 0 and Content-Range 0-0 headers;
UploadBlobToArtifactory instead appends the digest before phase 1, so both
its PATCH and its finalizing PUT target the digest-carrying URL, and its
finalizing PUT carries a nil body with neither header set. -/
theorem digestBinding_amended (repo dig : String) (gb : Bool) (initO : Outcome) (u : Url)
    (presp : Response) (putO : Outcome)
    (hinit : (initiateUpload repo initO).1 = .ok u)
    (hp : presp.statusCode = 202) :
    reqsOf (UploadChunkedBlob repo dig gb initO (.ok presp) putO).2 "patch" =
      [octetRequest "PATCH" u true gb] ∧
    reqsOf (UploadChunkedBlob repo dig gb initO (.ok presp) putO).2 "put" =
      [finalizePutRequest (u.setQuery "digest" dig) gb] ∧
    (finalizePutRequest (u.setQuery "digest" dig) gb).bodyPresent = false ∧
    (finalizePutRequest (u.setQuery "digest" dig) gb).contentLengthHeader = some "0" ∧
    (finalizePutRequest (u.setQuery "digest" dig) gb).contentRange = some "0-0" ∧
    reqsOf (UploadBlobToArtifactory repo dig gb initO (.ok presp) putO).2 "patch" =
      [octetRequest "PATCH" (u.setQuery "digest" dig) true gb] ∧
    reqsOf (UploadBlobToArtifactory repo dig gb initO (.ok presp) putO).2 "put" =
      [octetRequest "PUT" (u.setQuery "digest" dig) false gb] := by
  have p1 : ("patch" : String) ≠ "put" := by decide
  have p2 : ("put" : String) ≠ "patch" := by decide
  have r1 := initiate_reqsOf_other repo initO "patch" (by decide)
  have r2 := initiate_reqsOf_other repo initO "put" (by decide)
  have hc := completeChunked_reqs dig gb u putO
  simp only [reqsOf, beq_iff_eq] at r1 r2 hc ⊢
  refine ⟨?_, ?_, rfl, rfl, rfl, ?_, ?_⟩
  · simp [UploadChunkedBlob, hinit, hp, List.filterMap_append, r1, hc.2, p1, p2]
  · simp [UploadChunkedBlob, hinit, hp, List.filterMap_append, r2, hc.1, p1, p2]
  · cases putO <;>
      simp [UploadBlobToArtifactory, hinit, hp, List.filterMap_append, r1, p1, p2]
  · cases putO <;>
      simp [UploadBlobToArtifactory, hinit, hp, List.filterMap_append, r2, p1, p2]

theorem digestBinding_amended_witness :
    reqsOf (UploadChunkedBlob "r" "sha256:d" false (.ok sessResp) (.ok acceptedResp)
        (.ok createdResp)).2 "patch" =
      [octetRequest "PATCH" { path := "sess", query := [] } true false] ∧
    reqsOf (UploadChunkedBlob "r" "sha256:d" false (.ok sessResp) (.ok acceptedResp)
        (.ok createdResp)).2 "put" =
      [finalizePutRequest { path := "sess", query := [("digest", "sha256:d")] } false] := by
  have h := digestBinding_amended "r" "sha256:d" false (.ok sessResp)
    { path := "sess", query := [] } acceptedResp (.ok createdResp) rfl rfl
  exact ⟨h.1, h.2.1⟩

/-- C6 exhibit: the code leaks response bodies.  With a phase-1 PATCH
answered by a 200 response, UploadChunkedBlob reads the body into its
diagnostic and returns without ever closing it; a fully successful
UploadBlobToArtifactory never closes its phase-2 response; and
completeChunkedUploadBlob on a non-201 response likewise returns without
closing. -/
theorem responseBodyClose_violation :
    closeCount (UploadChunkedBlob "r" "sha256:d" false (.ok sessResp) (.ok okBodyResp)
      (.ok createdResp)).2 "patch" = 0 ∧
    Outcome.hasResp (.ok okBodyResp) = true ∧
    closeCount (UploadBlobToArtifactory "r" "sha256:d" false (.ok sessResp) (.ok acceptedResp)
      (.ok createdResp)).2 "put" = 0 ∧
    (UploadBlobToArtifactory "r" "sha256:d" false (.ok sessResp) (.ok acceptedResp)
      (.ok createdResp)).1 = none ∧
    closeCount (completeChunkedUploadBlob "sha256:d" false { path := "sess", query := [] }
      (.ok okBodyResp)).2 "put" = 0 := by
  decide
